import Mathlib

/-!
# Verification of the translator-llm orchestration core

Shallow embedding of the client-side translation pipeline of the
translator-llm repository:

* `processAudio` (src/app/page.tsx) — the pipeline entry point that
  guards against concurrent segments, discards too-short audio, runs the
  initial language-detection phase or the steady translation phase, and
  surfaces errors,
* the speech-synthesis playback machinery (`cleanupAudio`,
  `playTranslatedText` of src/components/language-selector.tsx), and
* the TTS-gating refs (`ttsEnableTimeRef` / `lastTranslationTimeRef`).

Remote services (speech-to-text, language detection, streaming
translation, speech synthesis) are opaque: each run of the pipeline is
parametrised by an environment that records what the services would
answer.  Every remote call the code would issue is recorded in a trace,
so "no remote call occurs" is a statement about the trace.
-/

namespace TranslatorLLM

/-- `Language{code, name}` as used by the pipeline (src/lib/types). -/
structure Language where
  code : String
  name : String
deriving DecidableEq, Repr

/-- The `Message` interface of src/app/page.tsx (lines 13–20). -/
structure Message where
  id : String
  originalText : String
  translatedText : String
  timestamp : Nat
  sourceLang : String
  targetLang : String
deriving DecidableEq, Repr

/-- The React state of the `Home` component (src/app/page.tsx lines 23–34)
that the pipeline reads or writes.  `processingRef` is the ref-based
in-flight guard; `isProcessing` mirrors it for the UI.  `isInitialSetup`
is the pipeline phase: `true` = AwaitingLanguagePair, `false` = Steady. -/
structure HomeState where
  isProcessing : Bool
  supportedLanguages : List Language
  error : Option String
  transcribedText : String
  translatedText : String
  messages : List Message
  processingRef : Bool
  isInitialSetup : Bool
deriving DecidableEq, Repr

/-- The initial state of the `Home` component: no languages, no error, no
messages, guard clear, phase AwaitingLanguagePair. -/
def initialHomeState : HomeState :=
  { isProcessing := false
    supportedLanguages := []
    error := none
    transcribedText := ""
    translatedText := ""
    messages := []
    processingRef := false
    isInitialSetup := true }

/-- An error payload of the `/api/speech` endpoint: the `error` category
string and the optional `details` field. -/
structure SpeechErrorData where
  error : String
  details : Option String
deriving DecidableEq, Repr

/-- Outcome of a `/api/speech` transcription call: either an ok response
`{text, language}`, or a non-ok response carrying an error payload. -/
inductive SpeechResult where
  | ok (text : String) (language : String)
  | err (e : SpeechErrorData)
deriving DecidableEq, Repr

/-- Outcome of a `/api/language` detection call: either the two detected
languages, or a non-ok response with an optional error string. -/
inductive LanguageResult where
  | ok (sourceLanguage targetLanguage : Language)
  | err (error : Option String)
deriving DecidableEq, Repr

/-- Modelled from the spec: the streaming contract of `translateText`
(src/lib/translate, not under src/): the `onPartial` callback is invoked
zero or more times with progressively more complete partial strings, in
order, before the call resolves with the final translated string or
rejects.  `partials` is the sequence of callback arguments, `outcome`
the resolution (`Except.ok final`) or rejection (`Except.error msg`). -/
structure TranslateRun where
  partials : List String
  outcome : Except String String
deriving Repr

/-- A remote call issued by one run of `processAudio`, with the data that
identifies it: the speech call's optional language hint, the language
detection call's text, the translation call's text and language pair. -/
inductive RemoteCall where
  | speech (languagesHint : Option (List Language))
  | language (text : String)
  | translate (text : String) (languages : List Language)
deriving DecidableEq, Repr

/-- The environment of one run of `processAudio`: what the remote
services would answer, and the current clock value (`Date.now()`). -/
structure PipelineEnv where
  speech : SpeechResult
  lang : LanguageResult
  translate : TranslateRun
  now : Nat
deriving Repr

/-- The quality-failure categories silently ignored in the initial setup
phase (src/app/page.tsx lines 65–67). -/
def setupQualityErrors : List String :=
  ["Low quality speech detected", "No speech detected", "Speech too short"]

/-- The quality-failure categories silently ignored in the steady phase
(src/app/page.tsx lines 121–123). -/
def steadyQualityErrors : List String :=
  ["Low quality speech detected", "No speech detected", "Transcription too short"]

/-- JavaScript `a || b` on an optional string `a` and a string `b`:
`undefined` and the empty string are falsy. -/
def jsOrString (a : Option String) (b : String) : String :=
  match a with
  | some s => if s = "" then b else s
  | none => b

/-- The user-friendly error message built in the setup phase for a non-ok
transcription response (src/app/page.tsx lines 72–85): specific Korean
messages for four known categories, else `details || error`. -/
def setupUserError (e : SpeechErrorData) : String :=
  if e.error = "Network connection failed" then
    "네트워크 연결이 불안정합니다. 모바일 데이터 연결을 확인하고 다시 시도해주세요."
  else if e.error = "API access blocked" then
    "서버 접속이 일시적으로 제한되었습니다. 잠시 후 다시 시도해주세요."
  else if e.error = "Request timeout" then
    "네트워크 속도가 너무 느립니다. 더 안정적인 네트워크 환경에서 시도해주세요."
  else if e.error = "Invalid audio file" then
    "오디오 파일이 올바르지 않습니다. 마이크 권한을 확인하고 다시 시도해주세요."
  else
    jsOrString e.details e.error

/-- The error message thrown in the steady phase for a non-ok, non-quality
transcription response: `details || error || 'Failed to transcribe audio'`
(src/app/page.tsx line 127). -/
def steadyTranscriptionError (e : SpeechErrorData) : String :=
  jsOrString e.details (jsOrString (some e.error) "Failed to transcribe audio")

/-- Each `onPartial` callback invocation runs `setTranslatedText(partial)`
(src/app/page.tsx lines 137–139): the partial fully replaces the
displayed translation. -/
def applyPartials (s : HomeState) (ps : List String) : HomeState :=
  ps.foldl (fun st p => { st with translatedText := p }) s

/-- The initial language-detection branch of `processAudio`
(src/app/page.tsx lines 55–109).  Returns the state at the end of the
branch (or at the throw point), the thrown error message if any, and the
trace of remote calls issued. -/
def setupPhase (s : HomeState) (env : PipelineEnv) :
    HomeState × Option String × List RemoteCall :=
  match env.speech with
  | .err e =>
      if e.error ∈ setupQualityErrors then
        (s, none, [RemoteCall.speech none])
      else
        (s, some (setupUserError e), [RemoteCall.speech none])
  | .ok text _lang =>
      let s1 : HomeState := { s with transcribedText := text }
      match env.lang with
      | .err lerr =>
          (s1, some (jsOrString lerr "Failed to detect languages"),
           [RemoteCall.speech none, RemoteCall.language text])
      | .ok src tgt =>
          ({ s1 with supportedLanguages := [src, tgt], isInitialSetup := false },
           none,
           [RemoteCall.speech none, RemoteCall.language text])

/-- The steady translation branch of `processAudio` (src/app/page.tsx
lines 110–153).  The speech call carries the stored language pair as a
hint; on success the transcript is translated (streaming), and a new
`Message` is appended with `sourceLang` the detected language and
`targetLang` `supportedLanguages[1].code`. -/
def steadyPhase (s : HomeState) (env : PipelineEnv) :
    HomeState × Option String × List RemoteCall :=
  match env.speech with
  | .err e =>
      if e.error ∈ steadyQualityErrors then
        (s, none, [RemoteCall.speech (some s.supportedLanguages)])
      else
        (s, some (steadyTranscriptionError e),
         [RemoteCall.speech (some s.supportedLanguages)])
  | .ok text lang =>
      let s1 : HomeState := { s with transcribedText := text }
      let calls := [RemoteCall.speech (some s.supportedLanguages),
                    RemoteCall.translate text s.supportedLanguages]
      let s2 := applyPartials s1 env.translate.partials
      match env.translate.outcome with
      | .error m => (s2, some m, calls)
      | .ok final =>
          match s2.supportedLanguages[1]? with
          | none =>
              (s2, some "Cannot read properties of undefined (reading 'code')",
               calls)
          | some l =>
              let newMessage : Message :=
                { id := toString env.now
                  originalText := text
                  translatedText := final
                  timestamp := env.now
                  sourceLang := lang
                  targetLang := l.code }
              ({ s2 with messages := s2.messages ++ [newMessage] }, none, calls)

/-- `processAudio` (src/app/page.tsx lines 36–161): drop if the in-flight
guard is set; drop if the blob is smaller than 15000 bytes; otherwise
set the guard, clear the error, run the phase branch inside
try/catch/finally — a thrown error is caught and stored via `setError`,
and the guard is released in the `finally` block on every path. -/
def processAudio (s : HomeState) (blobSize : Nat) (env : PipelineEnv) :
    HomeState × List RemoteCall :=
  if s.processingRef then (s, [])
  else if blobSize < 15000 then (s, [])
  else
    let s1 : HomeState :=
      { s with processingRef := true, isProcessing := true, error := none }
    let r := if s1.isInitialSetup then setupPhase s1 env else steadyPhase s1 env
    let s2 : HomeState :=
      match r.2.1 with
      | some m => { r.1 with error := some m }
      | none => r.1
    ({ s2 with processingRef := false, isProcessing := false }, r.2.2)

/-- Folding `processAudio` over a list of (blobSize, environment) steps:
the state after a sequence of segment deliveries. -/
def runPipeline (s : HomeState) (steps : List (Nat × PipelineEnv)) : HomeState :=
  steps.foldl (fun st p => (processAudio st p.1 p.2).1) s

/-! ## Speech-synthesis playback (src/components/language-selector.tsx) -/

/-- The playback state of the `LanguageSelector` component
(src/components/language-selector.tsx lines 35–44): the two busy flags
and the three refs (abort controller of the in-flight TTS fetch, current
audio element, current object URL), each identified by a numeric id. -/
structure AudioState where
  isPlaying : Bool
  isLoadingAudio : Bool
  abortController : Option Nat
  audioElem : Option Nat
  audioUrl : Option Nat
deriving DecidableEq, Repr

/-- An observable action of the playback machinery: aborting an in-flight
fetch, pausing/resetting an audio element, revoking an object URL,
issuing a TTS fetch (with the abort controller wired to it), or calling
`audio.play()`. -/
inductive AudioAction where
  | abortFetch (controllerId : Nat)
  | pauseAudio (audioId : Nat)
  | revokeUrl (urlId : Nat)
  | fetchTTS (text : String) (controllerId : Nat)
  | playAttempt (audioId : Nat)
deriving DecidableEq, Repr

/-- `cleanupAudio` (src/components/language-selector.tsx lines 148–182):
abort the in-flight fetch if any, pause/reset the audio element if any,
revoke the object URL if any, null all three refs, clear both flags. -/
def cleanupAudio (s : AudioState) : AudioState × List AudioAction :=
  let abortActs := match s.abortController with
    | some i => [AudioAction.abortFetch i]
    | none => []
  let pauseActs := match s.audioElem with
    | some i => [AudioAction.pauseAudio i]
    | none => []
  let revokeActs := match s.audioUrl with
    | some i => [AudioAction.revokeUrl i]
    | none => []
  ({ isPlaying := false, isLoadingAudio := false,
     abortController := none, audioElem := none, audioUrl := none },
   abortActs ++ pauseActs ++ revokeActs)

/-- Outcome of the `/api/speech/tts` fetch: ok with the response blob's
mime type, a non-ok HTTP response, or an abort. -/
inductive TTSResponse where
  | ok (mimeType : String)
  | httpError
  | aborted
deriving DecidableEq, Repr

/-- The environment of one `playTranslatedText` run: the fetch outcome,
fresh ids for the abort controller, object URL and audio element the run
creates, and whether one of the (up to three) `audio.play()` attempts
succeeds. -/
structure TTSEnv where
  response : TTSResponse
  controllerId : Nat
  urlId : Nat
  audioId : Nat
  playSucceeds : Bool
deriving Repr

/-- `playTranslatedText` (src/components/language-selector.tsx
lines 184–291): drop the request if there is no translated text or a
previous request is still loading or playing; otherwise run
`cleanupAudio`, set `isLoadingAudio`, create a fresh abort controller,
issue the TTS fetch with its signal, and on success create the object
URL and audio element and attempt playback; every failure path (HTTP
error, abort, non-audio mime type, all play attempts failing) ends in
`cleanupAudio`.  `isPlaying` is set later by the `oncanplaythrough`
handler, not by this function. -/
def playTranslatedText (s : AudioState) (translatedText : String)
    (env : TTSEnv) : AudioState × List AudioAction :=
  if translatedText = "" ∨ s.isPlaying ∨ s.isLoadingAudio then (s, [])
  else
    let c := cleanupAudio s
    let s2 : AudioState :=
      { c.1 with isLoadingAudio := true, abortController := some env.controllerId }
    let pre := c.2 ++ [AudioAction.fetchTTS translatedText env.controllerId]
    match env.response with
    | .httpError =>
        let c2 := cleanupAudio s2
        (c2.1, pre ++ c2.2)
    | .aborted =>
        let c2 := cleanupAudio s2
        (c2.1, pre ++ c2.2)
    | .ok mime =>
        if mime.startsWith "audio/" then
          let s3 : AudioState :=
            { s2 with audioUrl := some env.urlId, audioElem := some env.audioId }
          if env.playSucceeds then
            (s3, pre ++ [AudioAction.playAttempt env.audioId])
          else
            let c2 := cleanupAudio s3
            (c2.1, pre ++ [AudioAction.playAttempt env.audioId] ++ c2.2)
        else
          let c2 := cleanupAudio s2
          (c2.1, pre ++ c2.2)

/-- The `oncanplaythrough` handler (src/components/language-selector.tsx
lines 230–233): clear the loading flag, set the playing flag. -/
def onCanPlayThrough (s : AudioState) : AudioState :=
  { s with isLoadingAudio := false, isPlaying := true }

/-- The `onended` handler (lines 235–237): run `cleanupAudio`. -/
def onEnded (s : AudioState) : AudioState := (cleanupAudio s).1

/-- The `onerror` handler (lines 239–247): log and run `cleanupAudio`. -/
def onAudioError (s : AudioState) : AudioState := (cleanupAudio s).1

/-! ## TTS auto-play gating (src/components/language-selector.tsx) -/

/-- The effect of lines 89–94: whenever `isTTSEnabled` is (or becomes)
true, `ttsEnableTimeRef.current` is set to `Date.now()`. -/
def trackTTSEnableTime (isTTSEnabled : Bool) (now ttsEnableTime : Nat) : Nat :=
  if isTTSEnabled then now else ttsEnableTime

/-- The effect of lines 96–102: whenever `translatedText` differs from the
previous value, `lastTranslationTimeRef.current` is set to `Date.now()`. -/
def trackTranslationTime (translatedText previousTranslatedText : String)
    (now lastTranslationTime : Nat) : Nat :=
  if translatedText ≠ previousTranslatedText then now else lastTranslationTime

/-- The `shouldPlayTTS` check of line 109:
`lastTranslationTimeRef.current >= ttsEnableTimeRef.current`. -/
def shouldPlayTTS (lastTranslationTime ttsEnableTime : Nat) : Bool :=
  ttsEnableTime ≤ lastTranslationTime

/-- The TTS playback effect (lines 105–133): returns whether an automatic
playback is attempted (scheduled).  Nothing is attempted when there is
no translated text or TTS is disabled (line 106), nor when the last
translation predates the last enable time (lines 109–111). -/
def ttsPlaybackAttempted (translatedText : String) (isTTSEnabled : Bool)
    (lastTranslationTime ttsEnableTime : Nat) : Bool :=
  if translatedText = "" ∨ ¬ isTTSEnabled then false
  else shouldPlayTTS lastTranslationTime ttsEnableTime

/-! ## Concrete fixtures for witnesses and counterexamples -/

/-- English, as returned by the language-detection service. -/
def langEnglish : Language := { code := "en", name := "English" }

/-- Spanish, as returned by the language-detection service. -/
def langSpanish : Language := { code := "es", name := "Spanish" }

/-- A translation run with no partials and an empty final value, for
environments whose translation service is never reached. -/
def emptyTranslateRun : TranslateRun := { partials := [], outcome := Except.ok "" }

/-- A state whose in-flight guard is set: a segment is being processed. -/
def busyHomeState : HomeState :=
  { initialHomeState with processingRef := true, isProcessing := true }

/-- A steady-phase state with the pair (English, Spanish) stored. -/
def steadyHomeState : HomeState :=
  { initialHomeState with
      supportedLanguages := [langEnglish, langSpanish]
      isInitialSetup := false }

/-- Setup-phase environment: transcription and language detection both
succeed, detecting (English, Spanish). -/
def envSetupOk : PipelineEnv :=
  { speech := SpeechResult.ok "Hello, how are you?" "en"
    lang := LanguageResult.ok langEnglish langSpanish
    translate := emptyTranslateRun
    now := 100 }

/-- Steady-phase environment: transcription succeeds, translation streams
two partials and resolves. -/
def envSteadyOk : PipelineEnv :=
  { speech := SpeechResult.ok "Good morning" "en"
    lang := LanguageResult.err none
    translate := { partials := ["Buen...", "Buenos días"]
                   outcome := Except.ok "Buenos días" }
    now := 200 }

/-- Steady-phase environment in which the detected language of the
segment is the second language of the stored pair. -/
def envSteadySpanish : PipelineEnv :=
  { speech := SpeechResult.ok "Buenos días" "es"
    lang := LanguageResult.err none
    translate := { partials := [], outcome := Except.ok "Good morning" }
    now := 250 }

/-- Environment whose transcription fails with the quality category
"No speech detected". -/
def envNoSpeech : PipelineEnv :=
  { speech := SpeechResult.err { error := "No speech detected", details := none }
    lang := LanguageResult.err none
    translate := emptyTranslateRun
    now := 300 }

/-- Environment whose transcription fails with "Network connection
failed". -/
def envNetworkFail : PipelineEnv :=
  { speech := SpeechResult.err { error := "Network connection failed", details := none }
    lang := LanguageResult.err none
    translate := emptyTranslateRun
    now := 400 }

/-- A playback state in which a previous synthesis fetch is still in
flight: the loading flag is set and the abort controller (id 7) live. -/
def loadingAudioState : AudioState :=
  { isPlaying := false, isLoadingAudio := true
    abortController := some 7, audioElem := none, audioUrl := none }

/-- A playback state with lingering refs (controller 3, audio element 4,
object URL 5) but both busy flags clear. -/
def lingeringAudioState : AudioState :=
  { isPlaying := false, isLoadingAudio := false
    abortController := some 3, audioElem := some 4, audioUrl := some 5 }

/-- A TTS environment whose fetch succeeds with an audio-typed blob and
whose playback attempt succeeds. -/
def ttsEnvOk : TTSEnv :=
  { response := TTSResponse.ok "audio/mpeg"
    controllerId := 8, urlId := 9, audioId := 10, playSucceeds := true }

/-! ## Helper lemmas (shared) -/

/-- `applyPartials` only rewrites `translatedText`, to the last partial if
there is one. -/
theorem applyPartials_eq (s : HomeState) (ps : List String) :
    applyPartials s ps =
      { s with translatedText := ps.getLast?.getD s.translatedText } := by
  induction ps generalizing s with
  | nil => rfl
  | cons p ps ih =>
      have h1 : applyPartials s (p :: ps) =
          applyPartials { s with translatedText := p } ps := rfl
      rw [h1, ih]
      cases ps with
      | nil => rfl
      | cons q qs =>
          have h2 : (q :: qs).getLast?.isSome := by
            rw [List.getLast?_isSome]
            simp
          rcases Option.isSome_iff_exists.mp h2 with ⟨x, hx⟩
          simp [hx]

/-! ## The claims -/

/-- C1: a segment delivered while the in-flight guard is set is dropped:
the state is unchanged and no remote call is made. -/
theorem processAudio_inflight_drop (s : HomeState) (blobSize : Nat)
    (env : PipelineEnv) (h : s.processingRef = true) :
    processAudio s blobSize env = (s, []) := by
  simp [processAudio, h]

/-- Witness for C1: the guard of `busyHomeState` is set, and the segment
is dropped with no state change and no remote call. -/
theorem processAudio_inflight_drop_witness :
    processAudio busyHomeState 20000 envSetupOk = (busyHomeState, []) :=
  processAudio_inflight_drop busyHomeState 20000 envSetupOk rfl

/-- C5: a segment whose encoded size is below 15000 bytes is discarded
silently — state unchanged, no remote call, guard never set. -/
theorem processAudio_short_audio_drop (s : HomeState) (blobSize : Nat)
    (env : PipelineEnv) (h : blobSize < 15000) :
    processAudio s blobSize env = (s, []) := by
  cases hp : s.processingRef <;> simp [processAudio, hp, h]

/-- Witness for C5: a 14999-byte segment is dropped with no state change
and no remote call. -/
theorem processAudio_short_audio_drop_witness :
    processAudio initialHomeState 14999 envSetupOk = (initialHomeState, []) :=
  processAudio_short_audio_drop initialHomeState 14999 envSetupOk (by decide)

/-- C3: a transcription quality failure (the setup categories
"Low quality speech detected" / "No speech detected" / "Speech too
short", or the steady category "Transcription too short") is discarded
silently: the only changes to the state are that the error is cleared
and the transient busy flags end reset — no error message, no appended
message, phase unchanged. -/
theorem quality_failure_silent (s : HomeState) (blobSize : Nat)
    (env : PipelineEnv) (e : SpeechErrorData)
    (hp : s.processingRef = false) (hb : 15000 ≤ blobSize)
    (hs : env.speech = SpeechResult.err e)
    (hq : (s.isInitialSetup = true ∧ e.error ∈ setupQualityErrors) ∨
          (s.isInitialSetup = false ∧ e.error ∈ steadyQualityErrors)) :
    (processAudio s blobSize env).1 =
      { s with error := none, isProcessing := false, processingRef := false } := by
  have hb' : ¬ blobSize < 15000 := Nat.not_lt.mpr hb
  rcases hq with ⟨hphase, hmem⟩ | ⟨hphase, hmem⟩ <;>
    simp [processAudio, setupPhase, steadyPhase, hp, hb', hs, hphase, hmem]

/-- Witness for C3: a "No speech detected" failure in the setup phase
leaves the initial state unchanged apart from the cleared error. -/
theorem quality_failure_silent_witness :
    (processAudio initialHomeState 20000 envNoSpeech).1 =
      { initialHomeState with
          error := none, isProcessing := false, processingRef := false } :=
  quality_failure_silent initialHomeState 20000 envNoSpeech
    { error := "No speech detected", details := none }
    rfl (by decide) rfl (Or.inl ⟨rfl, by decide⟩)

/-- C4: the in-flight guard is released on every path — any run of
`processAudio` from a state with clear flags ends with clear flags, for
every environment (normal return, silent discard, or thrown error); and
a non-quality transcription failure surfaces as a user-visible message
(the setup-phase friendly mapping, or the steady-phase
`details || error || fallback`), with no message appended, the phase
preserved, and the guard released ready for the next segment. -/
theorem guard_always_released :
    (initialHomeState.processingRef = false ∧
     initialHomeState.isProcessing = false) ∧
    (∀ s blobSize env, s.processingRef = false → s.isProcessing = false →
       (processAudio s blobSize env).1.processingRef = false ∧
       (processAudio s blobSize env).1.isProcessing = false) ∧
    (∀ s blobSize env e, s.processingRef = false → 15000 ≤ blobSize →
       env.speech = SpeechResult.err e → s.isInitialSetup = true →
       e.error ∉ setupQualityErrors →
       (processAudio s blobSize env).1.error = some (setupUserError e) ∧
       (processAudio s blobSize env).1.messages = s.messages ∧
       (processAudio s blobSize env).1.isInitialSetup = true ∧
       (processAudio s blobSize env).1.processingRef = false ∧
       (processAudio s blobSize env).1.isProcessing = false) ∧
    (∀ s blobSize env e, s.processingRef = false → 15000 ≤ blobSize →
       env.speech = SpeechResult.err e → s.isInitialSetup = false →
       e.error ∉ steadyQualityErrors →
       (processAudio s blobSize env).1.error =
         some (steadyTranscriptionError e) ∧
       (processAudio s blobSize env).1.messages = s.messages ∧
       (processAudio s blobSize env).1.isInitialSetup = false ∧
       (processAudio s blobSize env).1.processingRef = false ∧
       (processAudio s blobSize env).1.isProcessing = false) := by
  refine ⟨⟨rfl, rfl⟩, ?_, ?_, ?_⟩
  · intro s blobSize env hp hip
    by_cases hb : blobSize < 15000
    · simp [processAudio, hp, hb, hip]
    · simp [processAudio, hp, hb]
  · intro s blobSize env e hp hb hs hphase hq
    have hb' : ¬ blobSize < 15000 := Nat.not_lt.mpr hb
    simp [processAudio, setupPhase, hp, hb', hs, hphase, hq]
  · intro s blobSize env e hp hb hs hphase hq
    have hb' : ¬ blobSize < 15000 := Nat.not_lt.mpr hb
    simp [processAudio, steadyPhase, hp, hb', hs, hphase, hq]

/-- Witness for C4: a "Network connection failed" transcription failure
in the setup phase surfaces the localized (Korean) network message, with
no message appended, the phase preserved and the guard released. -/
theorem guard_always_released_witness :
    (processAudio initialHomeState 20000 envNetworkFail).1.error =
      some (setupUserError { error := "Network connection failed", details := none }) ∧
    (processAudio initialHomeState 20000 envNetworkFail).1.messages =
      initialHomeState.messages ∧
    (processAudio initialHomeState 20000 envNetworkFail).1.isInitialSetup = true ∧
    (processAudio initialHomeState 20000 envNetworkFail).1.processingRef = false ∧
    (processAudio initialHomeState 20000 envNetworkFail).1.isProcessing = false :=
  guard_always_released.2.2.1 initialHomeState 20000 envNetworkFail
    { error := "Network connection failed", details := none }
    rfl (by decide) rfl rfl (by decide)

/-- C2: the phase starts at AwaitingLanguagePair (`isInitialSetup = true`);
once in Steady (`isInitialSetup = false`) a run never reverts the phase,
never changes the stored language pair (whatever language the
transcription detects), and every translation call it issues uses that
stored pair; and from the setup phase, the transition to Steady happens
exactly when the segment passes both guards and transcription and
language detection both succeed — in which case the detected pair is
stored. -/
theorem language_pair_fixed :
    initialHomeState.isInitialSetup = true ∧
    (∀ s blobSize env, s.isInitialSetup = false →
       (processAudio s blobSize env).1.isInitialSetup = false ∧
       (processAudio s blobSize env).1.supportedLanguages =
         s.supportedLanguages ∧
       ∀ t langs,
         RemoteCall.translate t langs ∈ (processAudio s blobSize env).2 →
         langs = s.supportedLanguages) ∧
    (∀ s blobSize env, s.isInitialSetup = true →
       ((processAudio s blobSize env).1.isInitialSetup = false ↔
        s.processingRef = false ∧ 15000 ≤ blobSize ∧
        ∃ text lg src tgt,
          env.speech = SpeechResult.ok text lg ∧
          env.lang = LanguageResult.ok src tgt ∧
          (processAudio s blobSize env).1.supportedLanguages = [src, tgt])) := by
  refine ⟨rfl, ?_, ?_⟩
  · intro s blobSize env hst
    by_cases hp : s.processingRef
    · simp [processAudio, hp, hst]
    · by_cases hb : blobSize < 15000
      · simp [processAudio, hp, hb, hst]
      · rcases hsp : env.speech with ⟨text, lang⟩ | ⟨e⟩
        · rcases ho : env.translate.outcome with ⟨m⟩ | ⟨final⟩
          · simp [processAudio, steadyPhase, hp, hb, hst, hsp, ho,
                  applyPartials_eq]
          · rcases hl : s.supportedLanguages[1]? with _ | ⟨l⟩ <;>
              simp [processAudio, steadyPhase, hp, hb, hst, hsp, ho,
                    applyPartials_eq, hl]
        · by_cases hq : e.error ∈ steadyQualityErrors <;>
            simp [processAudio, steadyPhase, hp, hb, hst, hsp, hq]
  · intro s blobSize env hst
    by_cases hp : s.processingRef
    · simp [processAudio, hp, hst]
    · by_cases hb : blobSize < 15000
      · have hb2 : ¬ 15000 ≤ blobSize := Nat.not_le.mpr hb
        simp [processAudio, hp, hb, hst, hb2]
      · have hb2 : 15000 ≤ blobSize := Nat.not_lt.mp hb
        rcases hsp : env.speech with ⟨text, lang⟩ | ⟨e⟩
        · rcases hlg : env.lang with ⟨src, tgt⟩ | ⟨lerr⟩
          · simp [processAudio, setupPhase, hp, hb, hst, hsp, hlg, hb2]
          · simp [processAudio, setupPhase, hp, hb, hst, hsp, hlg]
        · by_cases hq : e.error ∈ setupQualityErrors <;>
            simp [processAudio, setupPhase, hp, hb, hst, hsp, hq]

/-- Witness for C2: a successful setup run from the initial state stores
the detected pair (English, Spanish) and enters Steady. -/
theorem language_pair_fixed_witness :
    (processAudio initialHomeState 20000 envSetupOk).1.isInitialSetup = false :=
  ((language_pair_fixed.2.2 initialHomeState 20000 envSetupOk rfl).mpr
    ⟨rfl, by decide,
     "Hello, how are you?", "en", langEnglish, langSpanish, rfl, rfl, rfl⟩)

/-- C6: each streaming partial fully replaces the displayed translation
(after the callbacks, the displayed text is the last partial, never a
concatenation), and the message appended on completion carries the final
resolved translation — the last value received from the stream. -/
theorem streaming_last_write_wins :
    (∀ s ps, (applyPartials s ps).translatedText =
       ps.getLast?.getD s.translatedText) ∧
    (∀ s blobSize env text lg final l,
       s.processingRef = false → 15000 ≤ blobSize →
       s.isInitialSetup = false →
       env.speech = SpeechResult.ok text lg →
       env.translate.outcome = Except.ok final →
       s.supportedLanguages[1]? = some l →
       (processAudio s blobSize env).1.translatedText =
         env.translate.partials.getLast?.getD s.translatedText ∧
       ∃ m, (processAudio s blobSize env).1.messages = s.messages ++ [m] ∧
         m.translatedText = final) := by
  constructor
  · intro s ps
    rw [applyPartials_eq]
  · intro s blobSize env text lg final l hp hb hst hsp ho hl
    have hb' : ¬ blobSize < 15000 := Nat.not_lt.mpr hb
    refine ⟨?_,
      ⟨{ id := toString env.now, originalText := text,
         translatedText := final, timestamp := env.now,
         sourceLang := lg, targetLang := l.code }, ?_, rfl⟩⟩ <;>
      simp [processAudio, steadyPhase, hp, hb', hst, hsp, ho,
            applyPartials_eq, hl]

/-- Witness for C6: the translation of "Good morning" streams "Buen..."
then "Buenos días"; the displayed text ends as "Buenos días" and the
appended message's translatedText is "Buenos días". -/
theorem streaming_last_write_wins_witness :
    (processAudio steadyHomeState 20000 envSteadyOk).1.translatedText =
      envSteadyOk.translate.partials.getLast?.getD steadyHomeState.translatedText ∧
    ∃ m, (processAudio steadyHomeState 20000 envSteadyOk).1.messages =
        steadyHomeState.messages ++ [m] ∧ m.translatedText = "Buenos días" :=
  streaming_last_write_wins.2 steadyHomeState 20000 envSteadyOk
    "Good morning" "en" "Buenos días" langSpanish rfl (by decide) rfl rfl rfl rfl

/-- C7: the message log is append-only — one run appends at most one
message (at the end, stamped with the run's completion clock), a run
sequence only extends the log (the old log stays a prefix of the new),
and when each run's clock exceeds all stored timestamps, the log stays
strictly ordered by timestamp. -/
theorem messages_append_only :
    (∀ s blobSize env, ∃ tail,
       (processAudio s blobSize env).1.messages = s.messages ++ tail ∧
       tail.length ≤ 1 ∧ ∀ m ∈ tail, m.timestamp = env.now) ∧
    (∀ steps s, s.messages <+: (runPipeline s steps).messages) ∧
    (∀ s blobSize env,
       (s.messages.map Message.timestamp).Chain' (· < ·) →
       (∀ m ∈ s.messages, m.timestamp < env.now) →
       ((processAudio s blobSize env).1.messages.map Message.timestamp).Chain'
         (· < ·)) := by
  have h1 : ∀ s blobSize env, ∃ tail,
      (processAudio s blobSize env).1.messages = s.messages ++ tail ∧
      tail.length ≤ 1 ∧ ∀ m ∈ tail, m.timestamp = env.now := by
    intro s blobSize env
    by_cases hp : s.processingRef
    · exact ⟨[], by simp [processAudio, hp], by simp, by simp⟩
    · by_cases hb : blobSize < 15000
      · exact ⟨[], by simp [processAudio, hp, hb], by simp, by simp⟩
      · by_cases hst : s.isInitialSetup
        · refine ⟨[], ?_, by simp, by simp⟩
          rcases hsp : env.speech with ⟨text, lang⟩ | ⟨e⟩
          · rcases hlg : env.lang with ⟨src, tgt⟩ | ⟨lerr⟩ <;>
              simp [processAudio, setupPhase, hp, hb, hst, hsp, hlg]
          · by_cases hq : e.error ∈ setupQualityErrors <;>
              simp [processAudio, setupPhase, hp, hb, hst, hsp, hq]
        · rcases hsp : env.speech with ⟨text, lang⟩ | ⟨e⟩
          · rcases ho : env.translate.outcome with ⟨m⟩ | ⟨final⟩
            · exact ⟨[], by simp [processAudio, steadyPhase, hp, hb, hst,
                hsp, ho, applyPartials_eq], by simp, by simp⟩
            · rcases hl : s.supportedLanguages[1]? with _ | ⟨l⟩
              · exact ⟨[], by simp [processAudio, steadyPhase, hp, hb, hst,
                  hsp, ho, applyPartials_eq, hl], by simp, by simp⟩
              · refine ⟨[{ id := toString env.now, originalText := text,
                           translatedText := final, timestamp := env.now,
                           sourceLang := lang, targetLang := l.code }],
                  ?_, by simp, by simp⟩
                simp [processAudio, steadyPhase, hp, hb, hst, hsp, ho,
                      applyPartials_eq, hl]
          · refine ⟨[], ?_, by simp, by simp⟩
            by_cases hq : e.error ∈ steadyQualityErrors <;>
              simp [processAudio, steadyPhase, hp, hb, hst, hsp, hq]
  refine ⟨h1, ?_, ?_⟩
  · intro steps
    induction steps with
    | nil =>
        intro s
        simp [runPipeline]
    | cons p ps ih =>
        intro s
        rcases h1 s p.1 p.2 with ⟨tail, heq, _, _⟩
        have hstep : runPipeline s (p :: ps) =
            runPipeline (processAudio s p.1 p.2).1 ps := rfl
        rw [hstep]
        refine List.IsPrefix.trans ?_ (ih _)
        rw [heq]
        exact List.prefix_append s.messages tail
  · intro s blobSize env hchain hlt
    rcases h1 s blobSize env with ⟨tail, heq, hlen, hts⟩
    rw [heq, List.map_append]
    rcases tail with _ | ⟨m, rest⟩
    · simpa using hchain
    · have hrest : rest = [] := by
        cases rest with
        | nil => rfl
        | cons a b => simp at hlen
      subst hrest
      rw [List.chain'_append]
      refine ⟨hchain, by simp, ?_⟩
      intro x hx y hy
      simp only [List.map_cons, List.map_nil, List.head?_cons,
                 Option.mem_def, Option.some.injEq] at hy
      rcases List.mem_getLast?_eq_getLast hx with ⟨hne, hxl⟩
      have hxmem : x ∈ s.messages.map Message.timestamp :=
        hxl ▸ List.getLast_mem hne
      rcases List.mem_map.mp hxmem with ⟨msg, hmsg, hmx⟩
      have := hlt msg hmsg
      have hm : m.timestamp = env.now := hts m (by simp)
      omega

/-- Witness for C7: running a successful steady segment after a setup
segment extends the log of the initial state. -/
theorem messages_append_only_witness :
    initialHomeState.messages <+:
      (runPipeline initialHomeState
        [(20000, envSetupOk), (20000, envSteadyOk)]).messages :=
  messages_append_only.2.1 [(20000, envSetupOk), (20000, envSteadyOk)]
    initialHomeState

/-- C10: every message appended in the steady phase takes `targetLang`
from the second stored language (`supportedLanguages[1].code`) no matter
which language the transcription detected, while `sourceLang` is the
detected language — so for a segment spoken in the second language,
`sourceLang` and `targetLang` coincide. -/
theorem steady_message_target_lang (s : HomeState) (blobSize : Nat)
    (env : PipelineEnv) (text lg final : String) (l : Language)
    (hp : s.processingRef = false) (hb : 15000 ≤ blobSize)
    (hst : s.isInitialSetup = false)
    (hsp : env.speech = SpeechResult.ok text lg)
    (ho : env.translate.outcome = Except.ok final)
    (hl : s.supportedLanguages[1]? = some l) :
    ∃ m, (processAudio s blobSize env).1.messages = s.messages ++ [m] ∧
      m.targetLang = l.code ∧ m.sourceLang = lg ∧ m.originalText = text := by
  have hb' : ¬ blobSize < 15000 := Nat.not_lt.mpr hb
  refine ⟨{ id := toString env.now, originalText := text,
            translatedText := final, timestamp := env.now,
            sourceLang := lg, targetLang := l.code }, ?_, rfl, rfl, rfl⟩
  simp [processAudio, steadyPhase, hp, hb', hst, hsp, ho,
        applyPartials_eq, hl]

/-- Witness for C10: a segment spoken in Spanish (the second stored
language) yields a message with sourceLang "es" and targetLang "es" —
the stored second language, not the actual translation target. -/
theorem steady_message_target_lang_witness :
    ∃ m, (processAudio steadyHomeState 20000 envSteadySpanish).1.messages =
        steadyHomeState.messages ++ [m] ∧
      m.targetLang = langSpanish.code ∧ m.sourceLang = "es" ∧
      m.originalText = "Buenos días" :=
  steady_message_target_lang steadyHomeState 20000 envSteadySpanish
    "Buenos días" "es" "Good morning" langSpanish rfl (by decide) rfl rfl rfl rfl

/-- Counterexample for C8: with a previous synthesis fetch still in
flight (`loadingAudioState`: loading flag set, abort controller 7 live),
a new playback request for "Hola" does not abort the previous fetch and
does not proceed — it returns with the state unchanged and an empty
action trace, the previous request left running. -/
theorem superseding_request_not_aborted :
    playTranslatedText loadingAudioState "Hola" ttsEnvOk =
      (loadingAudioState, []) ∧
    AudioAction.abortFetch 7 ∉
      (playTranslatedText loadingAudioState "Hola" ttsEnvOk).2 := by
  constructor
  · decide
  · decide

/-- C8 (amended): a new playback request that begins while a previous
request is still loading or playing is dropped — early return, state
unchanged, nothing aborted, and no fetch for the new request; when a
request does proceed (no request loading or playing), `cleanupAudio`
runs before the new fetch is issued, aborting any lingering previous
fetch and pausing any lingering playback. -/
theorem playback_drop_or_cleanup_first :
    (∀ s t env, (s.isPlaying = true ∨ s.isLoadingAudio = true) →
       playTranslatedText s t env = (s, [])) ∧
    (∀ s t env, t ≠ "" → s.isPlaying = false → s.isLoadingAudio = false →
       (∃ rest, (playTranslatedText s t env).2 =
          (cleanupAudio s).2 ++
            AudioAction.fetchTTS t env.controllerId :: rest) ∧
       (∀ i, s.abortController = some i →
          AudioAction.abortFetch i ∈ (cleanupAudio s).2) ∧
       (∀ i, s.audioElem = some i →
          AudioAction.pauseAudio i ∈ (cleanupAudio s).2)) := by
  constructor
  · intro s t env h
    rcases h with h | h <;> simp [playTranslatedText, h]
  · intro s t env ht hp hl
    refine ⟨?_, ?_, ?_⟩
    · rcases hr : env.response with ⟨mime⟩ | _ | _
      · by_cases hm : mime.startsWith "audio/"
        · by_cases hps : env.playSucceeds
          · exact ⟨[AudioAction.playAttempt env.audioId],
              by simp [playTranslatedText, cleanupAudio, ht, hp, hl, hr, hm, hps]⟩
          · exact ⟨[AudioAction.playAttempt env.audioId,
                    AudioAction.abortFetch env.controllerId,
                    AudioAction.pauseAudio env.audioId,
                    AudioAction.revokeUrl env.urlId],
              by simp [playTranslatedText, cleanupAudio, ht, hp, hl, hr, hm, hps]⟩
        · exact ⟨[AudioAction.abortFetch env.controllerId],
            by simp [playTranslatedText, cleanupAudio, ht, hp, hl, hr, hm]⟩
      · exact ⟨[AudioAction.abortFetch env.controllerId],
          by simp [playTranslatedText, cleanupAudio, ht, hp, hl, hr]⟩
      · exact ⟨[AudioAction.abortFetch env.controllerId],
          by simp [playTranslatedText, cleanupAudio, ht, hp, hl, hr]⟩
    · intro i hi
      simp [cleanupAudio, hi]
    · intro i hi
      rcases s.abortController <;> simp [cleanupAudio, hi]

/-- Witness for C8 (amended): from a state with lingering refs but clear
flags, a new request first aborts controller 3 and pauses audio 4, then
issues its fetch. -/
theorem playback_drop_or_cleanup_first_witness :
    (∃ rest, (playTranslatedText lingeringAudioState "Hola" ttsEnvOk).2 =
       (cleanupAudio lingeringAudioState).2 ++
         AudioAction.fetchTTS "Hola" ttsEnvOk.controllerId :: rest) ∧
    (∀ i, lingeringAudioState.abortController = some i →
       AudioAction.abortFetch i ∈ (cleanupAudio lingeringAudioState).2) ∧
    (∀ i, lingeringAudioState.audioElem = some i →
       AudioAction.pauseAudio i ∈ (cleanupAudio lingeringAudioState).2) :=
  playback_drop_or_cleanup_first.2 lingeringAudioState "Hola" ttsEnvOk
    (by decide) rfl rfl

/-- C9: automatic TTS playback is attempted only when the last
translation arrived at or after the most recent enable time; in
particular a translation that arrived (strictly) before TTS was last
re-enabled is never auto-played. -/
theorem tts_only_after_enable :
    (∀ tx b lastT ttsT, ttsPlaybackAttempted tx b lastT ttsT = true →
       ttsT ≤ lastT) ∧
    (∀ tx prev oldLast oldEnable t1 t2, tx ≠ prev → t1 < t2 →
       ttsPlaybackAttempted tx true
         (trackTranslationTime tx prev t1 oldLast)
         (trackTTSEnableTime true t2 oldEnable) = false) := by
  constructor
  · intro tx b lastT ttsT h
    by_cases hx : tx = ""
    · simp [ttsPlaybackAttempted, hx] at h
    · by_cases hb : b
      · simpa [ttsPlaybackAttempted, hx, hb, shouldPlayTTS] using h
      · simp [ttsPlaybackAttempted, hx, hb] at h
  · intro tx prev oldLast oldEnable t1 t2 hne hlt
    by_cases hx : tx = ""
    · simp [ttsPlaybackAttempted, hx]
    · simp [ttsPlaybackAttempted, trackTranslationTime, trackTTSEnableTime,
            hne, hx, shouldPlayTTS]
      omega

/-- Witness for C9: a translation that arrived at clock 5 is not
auto-played after TTS is re-enabled at clock 9. -/
theorem tts_only_after_enable_witness :
    ttsPlaybackAttempted "Hola" true
      (trackTranslationTime "Hola" "" 5 0)
      (trackTTSEnableTime true 9 0) = false :=
  tts_only_after_enable.2 "Hola" "" 0 0 5 9 (by decide) (by decide)

end TranslatorLLM
